import Mathlib

/-!
Shallow embedding of the abstract_turtle turtle-graphics engine
(src/abstract_turtle/abstract_turtle.py).

The turtle state machine is modelled as a record of the private fields of
`BaseTurtle.__init__`; each turtle method becomes a function from states to a
pair of the updated state and the list of canvas primitive calls the method
issues, in order.  The embedding is parametric in a linear ordered field `R`
standing for Python's real numbers, in a value `piv` standing for `math.pi`,
and in functions `cosF`, `sinF` standing for `math.cos` and `math.sin`; the
real-number claims are stated at `R = ℝ`, `piv = Real.pi`.

Python passes canvas arguments positionally without type checking, and
`BaseTurtle.circle`/`BaseTurtle.dot` pass the line width in the slot that the
`Canvas.draw_circle` interface declares as `color` and the pen color in the
slot declared as `width`.  To record faithfully which value lands in which
declared slot, the `color` and `width` slots of `draw_circle` hold a dynamic
value (`CanvasArg`: a number or a color); likewise `fill_polygon`'s points
slot holds an `Option`, because `BaseTurtle.end_fill` passes `self.__polygon`
which may be Python `None`.
-/

set_option linter.unusedSectionVars false

namespace AbstractTurtle

/-- Modelled from the spec: `Position` from the model module (not under src/),
"immutable pair (x, y) of real numbers; equality by value". -/
structure Position (R : Type) where
  x : R
  y : R
deriving DecidableEq

/-- Modelled from the spec: `Color` from the model module (not under src/),
"immutable RGB value"; the claims use colors only as opaque values compared
by value, so the channel representation is three integers. -/
structure Color where
  r : ℤ
  g : ℤ
  b : ℤ
deriving DecidableEq

/-- A value passed positionally into a canvas parameter slot: Python is
dynamically typed, so a slot can receive a number or a Color. -/
inductive CanvasArg (R : Type) where
  | num : R → CanvasArg R
  | col : Color → CanvasArg R
deriving DecidableEq

/-- One primitive call received by the `Canvas` (interface declared in
src/abstract_turtle/abstract_turtle.py lines 7-47), with the values the
turtle actually passes in each declared slot.  For `draw_circle` the declared
order is center, radius, color, width, is_filled. -/
inductive CanvasCall (R : Type) where
  | draw_line : Position R → Position R → Color → R → CanvasCall R
  | draw_circle : Position R → R → CanvasArg R → CanvasArg R → Bool → CanvasCall R
  | fill_polygon : Option (List (Position R)) → Color → CanvasCall R
  | set_bgcolor : Color → CanvasCall R
  | clear : CanvasCall R
deriving DecidableEq

/-- The private fields of `BaseTurtle` (`__x`, `__y`, `__line_width`,
`__theta`, `__pen_color`, `__fill_color`, `__pen_down`, `__degrees`,
`__polygon`).  The canvas reference is replaced by returning the list of
calls each operation issues. -/
structure TurtleState (R : Type) where
  x : R
  y : R
  lineWidth : R
  theta : R
  penColor : Color
  fillColor : Color
  penDown : Bool
  degreesUnit : R
  polygon : Option (List (Position R))
deriving DecidableEq

variable {R : Type} [LinearOrderedField R]

/-- `BaseTurtle.__current_pos`. -/
def currentPos (s : TurtleState R) : Position R :=
  Position.mk s.x s.y

/-- `BaseTurtle.__init__`: position (0,0), width 1, theta pi/2, both colors
black, pen down, 360 degrees, no polygon. -/
def initState (piv : R) : TurtleState R :=
  { x := 0, y := 0, lineWidth := 1, theta := piv / 2,
    penColor := Color.mk 0 0 0, fillColor := Color.mk 0 0 0,
    penDown := true, degreesUnit := 360, polygon := none }

/-- `BaseTurtle.filling`: `self.__polygon is not None`. -/
def filling (s : TurtleState R) : Bool :=
  s.polygon.isSome

/-- `BaseTurtle.goto`: if the pen is down, draw a line from the current
position to (x, y) with the pen color and line width; then update the
position; then, if filling, append the (new) current position to the
polygon. -/
def goto (x y : R) (s : TurtleState R) : TurtleState R × List (CanvasCall R) :=
  let calls : List (CanvasCall R) :=
    if s.penDown then
      [CanvasCall.draw_line (currentPos s) (Position.mk x y) s.penColor s.lineWidth]
    else []
  let s1 : TurtleState R := { s with x := x, y := y }
  let s2 : TurtleState R :=
    match s1.polygon with
    | some ps => { s1 with polygon := some (ps ++ [currentPos s1]) }
    | none => s1
  (s2, calls)

/-- `setpos = goto` (same function object in the source). -/
def setpos : R → R → TurtleState R → TurtleState R × List (CanvasCall R) :=
  goto

/-- `setposition = goto` (same function object in the source). -/
def setposition : R → R → TurtleState R → TurtleState R × List (CanvasCall R) :=
  goto

/-- `BaseTurtle.xcor`. -/
def xcor (s : TurtleState R) : R :=
  s.x

/-- `BaseTurtle.ycor`. -/
def ycor (s : TurtleState R) : R :=
  s.y

/-- `BaseTurtle.forward`: `goto(xcor() + amount*cos(theta), ycor() + amount*sin(theta))`. -/
def forward (cosF sinF : R → R) (amount : R) (s : TurtleState R) :
    TurtleState R × List (CanvasCall R) :=
  goto (xcor s + amount * cosF s.theta) (ycor s + amount * sinF s.theta) s

/-- `fd = forward`. -/
def fd : (R → R) → (R → R) → R → TurtleState R → TurtleState R × List (CanvasCall R) :=
  forward

/-- `BaseTurtle.__to_real_angle`: `(90 - amount) * (2*pi) / self.__degrees`. -/
def toRealAngle (piv amount : R) (s : TurtleState R) : R :=
  (90 - amount) * (2 * piv) / s.degreesUnit

/-- `BaseTurtle.__from_real_angle`: `90 - angle * self.__degrees / (2*pi)`. -/
def fromRealAngle (piv angle : R) (s : TurtleState R) : R :=
  90 - angle * s.degreesUnit / (2 * piv)

/-- `BaseTurtle.setheading`. -/
def setheading (piv h : R) (s : TurtleState R) : TurtleState R :=
  { s with theta := toRealAngle piv h s }

/-- `seth = setheading`. -/
def seth : R → R → TurtleState R → TurtleState R :=
  setheading

/-- `BaseTurtle.heading`. -/
def heading (piv : R) (s : TurtleState R) : R :=
  fromRealAngle piv s.theta s

/-- `BaseTurtle.degrees`: sets the number of degrees in a circle. -/
def degrees (amount : R) (s : TurtleState R) : TurtleState R :=
  { s with degreesUnit := amount }

/-- `BaseTurtle.circle`: if the pen is down, issue
`draw_circle(current_pos, radius, line_width, pen_color, True)` — note the
line width is passed in the interface's color slot and the pen color in its
width slot, exactly as in the source. -/
def circle (radius : R) (s : TurtleState R) : TurtleState R × List (CanvasCall R) :=
  (s,
    if s.penDown then
      [CanvasCall.draw_circle (currentPos s) radius
        (CanvasArg.num s.lineWidth) (CanvasArg.col s.penColor) true]
    else [])

/-- `BaseTurtle.dot`: default size `max(line_width + 4, line_width * 2)`;
if the pen is down, issue
`draw_circle(current_pos, size, line_width, pen_color, False)`. -/
def dot (sizeOpt : Option R) (s : TurtleState R) : TurtleState R × List (CanvasCall R) :=
  let size : R :=
    match sizeOpt with
    | none => max (s.lineWidth + 4) (s.lineWidth * 2)
    | some sz => sz
  (s,
    if s.penDown then
      [CanvasCall.draw_circle (currentPos s) size
        (CanvasArg.num s.lineWidth) (CanvasArg.col s.penColor) false]
    else [])

/-- `BaseTurtle.pendown`. -/
def pendown (s : TurtleState R) : TurtleState R :=
  { s with penDown := true }

/-- `BaseTurtle.penup`. -/
def penup (s : TurtleState R) : TurtleState R :=
  { s with penDown := false }

/-- `BaseTurtle.isdown`. -/
def isdown (s : TurtleState R) : Bool :=
  s.penDown

/-- `BaseTurtle.begin_fill`: `self.__polygon = [self.__current_pos]`
(unconditionally, whatever the previous fill state). -/
def begin_fill (s : TurtleState R) : TurtleState R :=
  { s with polygon := some [currentPos s] }

/-- `BaseTurtle.end_fill`: `self.__canvas.fill_polygon(self.__polygon,
self.__fill_color)` then `self.__polygon = None` (no check that a fill is
active; when it is not, Python `None` is passed as the points). -/
def end_fill (s : TurtleState R) : TurtleState R × List (CanvasCall R) :=
  ({ s with polygon := none }, [CanvasCall.fill_polygon s.polygon s.fillColor])

/-- `Turtle.backward`: `self.forward(-amount)`. -/
def backward (cosF sinF : R → R) (amount : R) (s : TurtleState R) :
    TurtleState R × List (CanvasCall R) :=
  forward cosF sinF (-amount) s

/-- `bk = backward`. -/
def bk : (R → R) → (R → R) → R → TurtleState R → TurtleState R × List (CanvasCall R) :=
  backward

/-- `back = backward`. -/
def back : (R → R) → (R → R) → R → TurtleState R → TurtleState R × List (CanvasCall R) :=
  backward

/-- `Turtle.right`: `self.setheading(self.heading() + amount)`. -/
def right (piv amount : R) (s : TurtleState R) : TurtleState R :=
  setheading piv (heading piv s + amount) s

/-- `rt = right`. -/
def rt : R → R → TurtleState R → TurtleState R :=
  right

/-- `Turtle.left`: `self.right(-amount)`. -/
def left (piv amount : R) (s : TurtleState R) : TurtleState R :=
  right piv (-amount) s

/-- `lt = left`. -/
def lt : R → R → TurtleState R → TurtleState R :=
  left

/-- `Turtle.setx`: `self.goto(x, self.xcor())` — exactly as written in the
source (the second argument is `xcor`, the current x coordinate). -/
def setx (x : R) (s : TurtleState R) : TurtleState R × List (CanvasCall R) :=
  goto x (xcor s) s

/-- `Turtle.sety`: `self.goto(self.ycor(), y)` — exactly as written in the
source (the first argument is `ycor`, the current y coordinate). -/
def sety (y : R) (s : TurtleState R) : TurtleState R × List (CanvasCall R) :=
  goto (ycor s) y s

/-- `Turtle.position`: `(self.xcor(), self.ycor())`. -/
def position (s : TurtleState R) : R × R :=
  (xcor s, ycor s)

/-- `pos = position`. -/
def pos : TurtleState R → R × R :=
  position

/-- `Turtle.radians`: `self.degrees(2 * pi)`. -/
def radians (piv : R) (s : TurtleState R) : TurtleState R :=
  degrees (2 * piv) s

/-- Sequencing of two turtle operations against the same canvas: run the
first, run the second on the resulting state, concatenate the calls issued. -/
def opSeq (f g : TurtleState R → TurtleState R × List (CanvasCall R))
    (s : TurtleState R) : TurtleState R × List (CanvasCall R) :=
  let r1 := f s
  let r2 := g r1.1
  (r2.1, r1.2 ++ r2.2)

/-- Lift a state-only operation (one that issues no canvas call) into the
state-and-calls form for sequencing. -/
def pureOp (f : TurtleState R → TurtleState R) (s : TurtleState R) :
    TurtleState R × List (CanvasCall R) :=
  (f s, [])

/-- Recognizer for `fill_polygon` entries in a call trace. -/
def isFillPolygonCall : CanvasCall R → Bool
  | CanvasCall.fill_polygon _ _ => true
  | _ => false

/-- A concrete sample state over ℚ with the pen down: position (3, 7), line
width 2, distinct pen and fill colors, no active fill. -/
def sDown : TurtleState ℚ :=
  { x := 3, y := 7, lineWidth := 2, theta := 1,
    penColor := Color.mk 10 20 30, fillColor := Color.mk 1 2 3,
    penDown := true, degreesUnit := 360, polygon := none }

/-- The same sample state with the pen up. -/
def sUp : TurtleState ℚ :=
  { sDown with penDown := false }

/-- Claim C1: from any turtle state, the sequence begin_fill; goto (x1,y1);
goto (x2,y2); end_fill issues exactly one fill_polygon call, whose points are
the start position followed by the two destinations in order and whose color
is the current fill color; begin_fill seeds the polygon with the current
position, each goto while filling appends the destination, and after end_fill
the turtle is no longer filling. -/
theorem fill_sequence_one_polygon (s : TurtleState R) (x1 y1 x2 y2 : R) :
    ((opSeq (opSeq (opSeq (pureOp begin_fill) (goto x1 y1)) (goto x2 y2)) end_fill s).2.filter
        isFillPolygonCall
      = [CanvasCall.fill_polygon
          (some [currentPos s, Position.mk x1 y1, Position.mk x2 y2]) s.fillColor])
    ∧ filling
        (opSeq (opSeq (opSeq (pureOp begin_fill) (goto x1 y1)) (goto x2 y2)) end_fill s).1
      = false
    ∧ (begin_fill s).polygon = some [currentPos s]
    ∧ ∀ (ps : List (Position R)) (px py : R),
        ((goto px py { s with polygon := some ps }).1).polygon
          = some (ps ++ [Position.mk px py]) := by
  refine ⟨?_, ?_, rfl, ?_⟩
  · cases hpd : s.penDown <;>
      simp [opSeq, pureOp, goto, begin_fill, end_fill, filling, currentPos,
        isFillPolygonCall, hpd, List.filter]
  · cases hpd : s.penDown <;>
      simp [opSeq, pureOp, goto, begin_fill, end_fill, filling, hpd]
  · intro ps px py
    simp [goto, currentPos]

/-- Claim C2: after penup, goto issues no canvas call at all (in particular
zero draw_line calls); after pendown, goto issues exactly one draw_line call
from the old position to the destination with the current pen color and line
width; in both cases the position becomes the destination. -/
theorem goto_pen_semantics (s : TurtleState R) (x y : R) :
    (goto x y (penup s)).2 = []
    ∧ (goto x y (pendown s)).2
      = [CanvasCall.draw_line (currentPos s) (Position.mk x y) s.penColor s.lineWidth]
    ∧ (goto x y (penup s)).1.x = x ∧ (goto x y (penup s)).1.y = y
    ∧ (goto x y (pendown s)).1.x = x ∧ (goto x y (pendown s)).1.y = y := by
  cases hp : s.polygon <;>
    simp [goto, penup, pendown, currentPos, hp]

/-- Claim C7: backward is forward with the amount negated and left is right
with the amount negated (no duplicated geometry); forward is goto of
(x + amount*cos theta, y + amount*sin theta); and each alias (fd, bk, back,
lt, rt, setpos, setposition, seth, pos) is the same operation as its
canonical form. -/
theorem backward_left_aliases_delegate (cosF sinF : R → R) (piv a x y : R)
    (st : TurtleState R) :
    backward cosF sinF a st = forward cosF sinF (-a) st
    ∧ left piv a st = right piv (-a) st
    ∧ forward cosF sinF a st
      = goto (xcor st + a * cosF st.theta) (ycor st + a * sinF st.theta) st
    ∧ fd cosF sinF a st = forward cosF sinF a st
    ∧ bk cosF sinF a st = backward cosF sinF a st
    ∧ back cosF sinF a st = backward cosF sinF a st
    ∧ lt piv a st = left piv a st
    ∧ rt piv a st = right piv a st
    ∧ setpos x y st = goto x y st
    ∧ setposition x y st = goto x y st
    ∧ seth piv a st = setheading piv a st
    ∧ pos st = position st :=
  ⟨rfl, rfl, rfl, rfl, rfl, rfl, rfl, rfl, rfl, rfl, rfl, rfl⟩

/-- Claim C10: degrees d changes only the angle-unit divisor — the stored
theta, position, pen state, colors, width and fill polygon are unchanged —
and heading afterwards reports the same stored theta reinterpreted under the
new unit, 90 - theta * d / (2 * pi). -/
theorem degrees_only_changes_unit (piv d : R) (s : TurtleState R) :
    (degrees d s).theta = s.theta
    ∧ (degrees d s).x = s.x
    ∧ (degrees d s).y = s.y
    ∧ (degrees d s).penDown = s.penDown
    ∧ (degrees d s).penColor = s.penColor
    ∧ (degrees d s).fillColor = s.fillColor
    ∧ (degrees d s).lineWidth = s.lineWidth
    ∧ (degrees d s).polygon = s.polygon
    ∧ (degrees d s).degreesUnit = d
    ∧ heading piv (degrees d s) = 90 - s.theta * d / (2 * piv) :=
  ⟨rfl, rfl, rfl, rfl, rfl, rfl, rfl, rfl, rfl, rfl⟩

/-- Claim C4: over the exact reals with pi = Real.pi, for any state, any
heading value h and any nonzero degrees unit d (including 2*pi as set by
radians), setheading h followed by heading returns exactly h, and a right
rotation (which reads the heading via the inverse mapping, adds, and re-sets)
shifts the reported heading by exactly the rotation amount — no drift. -/
theorem setheading_heading_roundtrip (s : TurtleState ℝ) (h a d : ℝ) (hd : d ≠ 0) :
    heading Real.pi (setheading Real.pi h (degrees d s)) = h
    ∧ heading Real.pi (setheading Real.pi h (radians Real.pi s)) = h
    ∧ heading Real.pi (right Real.pi a (degrees d s))
      = heading Real.pi (degrees d s) + a := by
  have hp : (Real.pi : ℝ) ≠ 0 := Real.pi_ne_zero
  have key : ∀ d' h' : ℝ, d' ≠ 0 →
      heading Real.pi (setheading Real.pi h' (degrees d' s)) = h' := by
    intro d' h' hd'
    simp only [heading, setheading, degrees, toRealAngle, fromRealAngle]
    field_simp
  refine ⟨key d h hd, ?_, ?_⟩
  · have h2 : (2 : ℝ) * Real.pi ≠ 0 := by
      positivity
    exact key (2 * Real.pi) h h2
  · simp only [right]
    exact key d (heading Real.pi (degrees d s) + a) hd

/-- Witness for setheading_heading_roundtrip at the initial state with
d = 360, h = 5, a = 7. -/
theorem setheading_heading_roundtrip_witness :
    (360 : ℝ) ≠ 0
    ∧ heading Real.pi (setheading Real.pi 5 (degrees 360 (initState Real.pi))) = 5 :=
  ⟨by norm_num,
    (setheading_heading_roundtrip (initState Real.pi) 5 7 360 (by norm_num)).1⟩

/-- Claim C9: with the pen up, dot — with any size argument or none — issues
no canvas call at all and leaves the state unchanged. -/
theorem dot_penup_no_call (s : TurtleState R) (hs : s.penDown = false)
    (sizeOpt : Option R) :
    (dot sizeOpt s).2 = [] ∧ (dot sizeOpt s).1 = s := by
  constructor
  · simp [dot, hs]
  · rfl

/-- Witness for dot_penup_no_call at the pen-up sample state with no size
argument. -/
theorem dot_penup_no_call_witness :
    sUp.penDown = false
    ∧ (dot (none : Option ℚ) sUp).2 = [] ∧ (dot (none : Option ℚ) sUp).1 = sUp :=
  ⟨rfl, dot_penup_no_call sUp rfl none⟩

/-- Claim C8 (amended): with the pen down, dot with the size omitted issues
exactly one draw_circle call at the current position, with radius
max(lineWidth + 4, lineWidth * 2) and is_filled false, and leaves the state
unchanged (the line width and pen color fill the call's declared color and
width slots, in that transposed order, as in the source). -/
theorem dot_default_size_pendown (s : TurtleState R) (hs : s.penDown = true) :
    (dot none s).2
      = [CanvasCall.draw_circle (currentPos s)
          (max (s.lineWidth + 4) (s.lineWidth * 2))
          (CanvasArg.num s.lineWidth) (CanvasArg.col s.penColor) false]
    ∧ (dot none s).1 = s := by
  constructor
  · simp [dot, hs]
  · rfl

/-- Witness for dot_default_size_pendown at the pen-down sample state. -/
theorem dot_default_size_pendown_witness :
    sDown.penDown = true
    ∧ (dot none sDown).2
      = [CanvasCall.draw_circle (currentPos sDown)
          (max (sDown.lineWidth + 4) (sDown.lineWidth * 2))
          (CanvasArg.num sDown.lineWidth) (CanvasArg.col sDown.penColor) false]
    ∧ (dot none sDown).1 = sDown :=
  ⟨rfl, dot_default_size_pendown sDown rfl⟩

/-- Counterexample to claim C8 as stated: at a pen-up state, dot with the
size omitted issues no canvas call, so it does not draw the unfilled circle
the claim asserts for every state. -/
theorem dot_claim_fails_when_penup :
    (dot (none : Option ℚ) sUp).2 = []
    ∧ (dot (none : Option ℚ) sUp).2
      ≠ [CanvasCall.draw_circle (currentPos sUp)
          (max (sUp.lineWidth + 4) (sUp.lineWidth * 2))
          (CanvasArg.num sUp.lineWidth) (CanvasArg.col sUp.penColor) false] := by
  constructor
  · rfl
  · intro hcontra
    simp [dot, sUp, sDown] at hcontra

/-- Claim C5 (amended): end_fill called with no active fill polygon raises no
error — it issues a fill_polygon call whose points value is the Python None
it finds in the fill slot, with the current fill color — and afterwards no
fill is active; begin_fill called while a fill polygon is active silently
replaces the partially built polygon with the singleton current position. -/
theorem end_fill_none_begin_fill_replace (s : TurtleState R) (hs : s.polygon = none) :
    (end_fill s).2 = [CanvasCall.fill_polygon none s.fillColor]
    ∧ (end_fill s).1.polygon = none
    ∧ ∀ t : TurtleState R, (begin_fill t).polygon = some [currentPos t] := by
  refine ⟨?_, rfl, fun t => rfl⟩
  simp [end_fill, hs]

/-- Witness for end_fill_none_begin_fill_replace at the pen-down sample
state, whose polygon is none. -/
theorem end_fill_none_begin_fill_replace_witness :
    sDown.polygon = none
    ∧ ((end_fill sDown).2 = [CanvasCall.fill_polygon none sDown.fillColor]
        ∧ (end_fill sDown).1.polygon = none
        ∧ ∀ t : TurtleState ℚ, (begin_fill t).polygon = some [currentPos t]) :=
  ⟨rfl, end_fill_none_begin_fill_replace sDown rfl⟩

/-- Counterexample to claim C5 as stated: with no fill active, end_fill does
issue a canvas call (it does not fail instead of calling the canvas), and
with a fill active, begin_fill does not fail — it silently replaces the
partially built polygon (here discarding the point (1, 2)) with the current
position. -/
theorem end_fill_emits_call_when_not_filling :
    (end_fill sDown).2 ≠ []
    ∧ (begin_fill { sDown with polygon := some [Position.mk 1 2] }).polygon
      = some [Position.mk 3 7] := by
  constructor
  · intro hcontra
    simp [end_fill] at hcontra
  · rfl

/-- Claim C3 evaluated at a concrete failing input: with the pen down,
circle 5 issues one draw_circle call with the correct center, radius and
is_filled = true, but the interface's color slot receives the numeric line
width (2) and the width slot receives the pen color — transposed relative to
the declared order center, radius, color, width, is_filled; with the pen up
no call is issued, and the state is unchanged in both cases. -/
theorem circle_passes_width_in_color_slot :
    (circle (5 : ℚ) sDown).2
      = [CanvasCall.draw_circle (Position.mk 3 7) 5
          (CanvasArg.num 2) (CanvasArg.col (Color.mk 10 20 30)) true]
    ∧ (circle (5 : ℚ) sDown).1 = sDown
    ∧ (circle (5 : ℚ) sUp).2 = []
    ∧ (circle (5 : ℚ) sUp).1 = sUp :=
  ⟨rfl, rfl, rfl, rfl⟩

/-- Claim C6 evaluated at a concrete failing input: from position (3, 7),
setx 5 passes the current x coordinate as the new y coordinate, landing at
(5, 3) instead of keeping y = 7, and sety 9 passes the current y coordinate
as the new x coordinate, landing at (7, 9) instead of keeping x = 3. -/
theorem setx_sety_use_wrong_coordinate :
    (setx (5 : ℚ) sUp).1.x = 5
    ∧ (setx (5 : ℚ) sUp).1.y = 3
    ∧ (setx (5 : ℚ) sUp).1.y ≠ sUp.y
    ∧ (sety (9 : ℚ) sUp).1.y = 9
    ∧ (sety (9 : ℚ) sUp).1.x = 7
    ∧ (sety (9 : ℚ) sUp).1.x ≠ sUp.x := by
  refine ⟨rfl, rfl, ?_, rfl, rfl, ?_⟩ <;> decide

end AbstractTurtle
